import Mathlib

/-!
Verification development for the real-time session gateway of
`src/server/index.js` (claudecodeui): the authenticated WebSocket upgrade
gate, the URL-path router, the shell session manager (pty process
lifecycle, I/O relay, output URL-pattern scanner) and the chat session
relay with its broadcast registry and notification fan-out.

Strings are modelled as `List Char` (JS strings, restricted to the code
points the gateway manipulates).  Server-side `console.log`/`console.error`
output is not modelled: it is observable neither by clients nor by the
process adapter.
-/

/-! ## Output URL-pattern scanner (src/server/index.js lines 643-686)

The `shellProcess.onData` handler scans each output chunk against six
regular expressions in a fixed order:

  1. `/(?:xdg-open|open|start)\s+(https?:\/\/[^\s\x1b\x07]+)/g`
  2. `/OPEN_URL:\s*(https?:\/\/[^\s\x1b\x07]+)/g`
  3. `/Opening\s+(https?:\/\/[^\s\x1b\x07]+)/gi`
  4. `/Visit:\s*(https?:\/\/[^\s\x1b\x07]+)/gi`
  5. `/View at:\s*(https?:\/\/[^\s\x1b\x07]+)/gi`
  6. `/Browse to:\s*(https?:\/\/[^\s\x1b\x07]+)/gi`

Each is run to exhaustion with `pattern.exec(data)` (the `g`-flag loop:
leftmost match, then continue searching from the end of the match), every
match sends a `url_open` message with capture group 1, and for the pattern
whose source contains `OPEN_URL` the matched text `match[0]` is replaced in
the forwarded output (`String.replace`: first occurrence only) by
`` `🌐 Opening in browser: ${url}` ``.

The matchers below implement exactly these regexes.  `\s` is modelled by
the ASCII whitespace characters (the JS class additionally contains
Unicode spaces, which the scanned pty output does not produce), and the
`i` flag by ASCII case folding, the fragment `https?:\/\/` by trying the
literal `https://` and then `http://` (equivalent to the regex with its
backtracking, since after `http` a literal `s` can never be the `:` of
`://`).
-/

/-- Character class `\s` of the scanner regexes (ASCII part). -/
def isJsSpace (c : Char) : Bool :=
  c == ' ' || c == '\t' || c == '\n' || c == '\r' || c == '\x0b' || c == '\x0c'

/-- Character class `[^\s\x1b\x07]` of the scanner regexes. -/
def isUrlChar (c : Char) : Bool :=
  !(isJsSpace c) && !(c == '\x1b') && !(c == '\x07')

/-- Case-sensitive literal matcher: consumes `lit` from the front of `s`. -/
def matchLit (lit s : List Char) : Option (List Char × List Char) :=
  if lit.isPrefixOf s then some (lit, s.drop lit.length) else none

/-- Case-insensitive literal matcher (regex `i` flag, ASCII folding); the
consumed text keeps the original characters of `s`, as `match[0]` does. -/
def matchLitCI : List Char → List Char → Option (List Char × List Char)
  | [], s => some ([], s)
  | _ :: _, [] => none
  | l :: ls, c :: cs =>
    if l.toLower = c.toLower then
      match matchLitCI ls cs with
      | none => none
      | some (m, r) => some (c :: m, r)
    else none

/-- Regex fragment `\s+` (greedy; nothing after it can be whitespace, so
maximal munch is exact). -/
def matchSpaces1 (s : List Char) : Option (List Char × List Char) :=
  if s.takeWhile isJsSpace = [] then none
  else some (s.takeWhile isJsSpace, s.dropWhile isJsSpace)

/-- Regex fragment `\s*`. -/
def matchSpaces0 (s : List Char) : Option (List Char × List Char) :=
  some (s.takeWhile isJsSpace, s.dropWhile isJsSpace)

/-- Regex fragment `https?:\/\/` (with or without the `i` flag). -/
def matchScheme (ci : Bool) (s : List Char) : Option (List Char × List Char) :=
  if ci then
    match matchLitCI "https://".data s with
    | some res => some res
    | none => matchLitCI "http://".data s
  else
    match matchLit "https://".data s with
    | some res => some res
    | none => matchLit "http://".data s

/-- Regex fragment `(https?:\/\/[^\s\x1b\x07]+)` — the capture group. -/
def matchUrl (ci : Bool) (s : List Char) : Option (List Char × List Char) :=
  match matchScheme ci s with
  | none => none
  | some (sch, r1) =>
    if r1.takeWhile isUrlChar = [] then none
    else some (sch ++ r1.takeWhile isUrlChar, r1.dropWhile isUrlChar)

/-- Sequencing `literal` then `whitespace` then `url-capture`; returns
`(match0, group1, rest)`. -/
def matchSeq (mLit mSpace mUrl : List Char → Option (List Char × List Char))
    (s : List Char) : Option (List Char × List Char × List Char) :=
  match mLit s with
  | none => none
  | some (a, r1) =>
    match mSpace r1 with
    | none => none
    | some (b, r2) =>
      match mUrl r2 with
      | none => none
      | some (u, r3) => some (a ++ b ++ u, u, r3)

/-- The six patterns of the `patterns` array, in array order. -/
inductive UrlPattern where
  | openCmd
  | openUrlEnv
  | opening
  | visit
  | viewAt
  | browseTo
deriving DecidableEq, Repr

/-- Regex source text of each pattern (the JS `pattern.source` property). -/
def patternSource : UrlPattern → List Char
  | .openCmd => "(?:xdg-open|open|start)\\s+(https?:\\/\\/[^\\s\\x1b\\x07]+)".data
  | .openUrlEnv => "OPEN_URL:\\s*(https?:\\/\\/[^\\s\\x1b\\x07]+)".data
  | .opening => "Opening\\s+(https?:\\/\\/[^\\s\\x1b\\x07]+)".data
  | .visit => "Visit:\\s*(https?:\\/\\/[^\\s\\x1b\\x07]+)".data
  | .viewAt => "View at:\\s*(https?:\\/\\/[^\\s\\x1b\\x07]+)".data
  | .browseTo => "Browse to:\\s*(https?:\\/\\/[^\\s\\x1b\\x07]+)".data

/-- Substring test, used for `pattern.source.includes('OPEN_URL')`. -/
def containsSub (sub : List Char) : List Char → Bool
  | [] => sub.isPrefixOf []
  | c :: cs => sub.isPrefixOf (c :: cs) || containsSub sub cs

/-- `pattern.source.includes('OPEN_URL')` of line 674. -/
def isOpenUrlPattern (p : UrlPattern) : Bool :=
  containsSub "OPEN_URL".data (patternSource p)

/-- Attempt to match pattern `p` at the start of `s`; alternation
`(?:xdg-open|open|start)` tries its branches left to right (the branch
literals start with pairwise distinct characters, so no deeper
backtracking can occur). -/
def matchAt : UrlPattern → List Char → Option (List Char × List Char × List Char)
  | .openCmd, s =>
    match matchSeq (matchLit "xdg-open".data) matchSpaces1 (matchUrl false) s with
    | some res => some res
    | none =>
      match matchSeq (matchLit "open".data) matchSpaces1 (matchUrl false) s with
      | some res => some res
      | none => matchSeq (matchLit "start".data) matchSpaces1 (matchUrl false) s
  | .openUrlEnv, s => matchSeq (matchLit "OPEN_URL:".data) matchSpaces0 (matchUrl false) s
  | .opening, s => matchSeq (matchLitCI "Opening".data) matchSpaces1 (matchUrl true) s
  | .visit, s => matchSeq (matchLitCI "Visit:".data) matchSpaces0 (matchUrl true) s
  | .viewAt, s => matchSeq (matchLitCI "View at:".data) matchSpaces0 (matchUrl true) s
  | .browseTo, s => matchSeq (matchLitCI "Browse to:".data) matchSpaces0 (matchUrl true) s

/-- Leftmost match of `p` in `s`: returns `(pre, match0, group1, rest)`
with `s = pre ++ match0 ++ rest`. -/
def findMatch (p : UrlPattern) : List Char → Option (List Char × List Char × List Char × List Char)
  | [] =>
    match matchAt p [] with
    | some (m0, g, r) => some ([], m0, g, r)
    | none => none
  | c :: cs =>
    match matchAt p (c :: cs) with
    | some (m0, g, r) => some ([], m0, g, r)
    | none =>
      match findMatch p cs with
      | some (pre, m0, g, r) => some (c :: pre, m0, g, r)
      | none => none

/-- The `while ((match = pattern.exec(data)) !== null)` loop: after a match
the search continues from `lastIndex`, the end of the match.  The fuel
argument only certifies termination (every match consumes at least one
character, so `s.length` steps suffice); it never cuts the loop short. -/
def allMatchesFuel (p : UrlPattern) : Nat → List Char → List (List Char × List Char)
  | 0, _ => []
  | fuel + 1, s =>
    match findMatch p s with
    | none => []
    | some (_, m0, g, r) => (m0, g) :: allMatchesFuel p fuel r

/-- All matches of `p` in `s`, in the order `exec` finds them. -/
def allMatches (p : UrlPattern) (s : List Char) : List (List Char × List Char) :=
  allMatchesFuel p s.length s

/-- JS `String.replace(pat, repl)` with a string first argument: replace the
first occurrence of `pat` (the `match[0]` texts passed here are never
empty, and the replacement texts contain no `$`, so the JS replacement
escapes do not arise). -/
def replaceOnce (pat repl : List Char) : List Char → List Char
  | [] => []
  | c :: cs =>
    if pat.isPrefixOf (c :: cs) then repl ++ (c :: cs).drop pat.length
    else c :: replaceOnce pat repl cs

/-- Replacement text `` `🌐 Opening in browser: ${url}` `` of line 675. -/
def openBrowserMsg (url : List Char) : List Char :=
  "🌐 Opening in browser: ".data ++ url

/-- One pattern's `while` loop body over its match list: every match sends
a `url_open` event (collected in order), and for the `OPEN_URL` pattern
`match[0]` is replaced in the evolving `outputData`. -/
def processMatches (p : UrlPattern) (ms : List (List Char × List Char))
    (outputData : List Char) : List (List Char) × List Char :=
  ms.foldl
    (fun acc m =>
      (acc.1 ++ [m.2],
       if isOpenUrlPattern p then replaceOnce m.1 (openBrowserMsg m.2) acc.2 else acc.2))
    ([], outputData)

/-- Result of scanning one output chunk: the `url_open` events in emission
order, and the final `outputData` forwarded as the `output` message. -/
structure ScanResult where
  urlEvents : List (List Char)
  output : List Char
deriving DecidableEq, Repr

/-- Processing of one pattern inside `patterns.forEach`. -/
def scanStep (data : List Char) (acc : ScanResult) (p : UrlPattern) : ScanResult :=
  ⟨acc.urlEvents ++ (processMatches p (allMatches p data) acc.output).1,
   (processMatches p (allMatches p data) acc.output).2⟩

/-- The whole `patterns.forEach` body of `shellProcess.onData`: patterns are
tried in array order against the original chunk `data`, while the
rewrites accumulate in `outputData` (initially the chunk itself). -/
def scanChunk (data : List Char) : ScanResult :=
  List.foldl (scanStep data) ⟨[], data⟩
    [UrlPattern.openCmd, UrlPattern.openUrlEnv, UrlPattern.opening,
     UrlPattern.visit, UrlPattern.viewAt, UrlPattern.browseTo]

/-! ## Shell session manager (src/server/index.js lines 580-748)

`handleShellConnection` keeps one mutable variable `shellProcess`
(zero-or-one live pty process) per socket.  Inbound websocket payloads are
parsed with `JSON.parse` inside a `try`; a parse failure reaches the
`catch` of lines 726-734.  The outcomes of the two fallible adapter calls
— `pty.spawn` (line 623) and `shellProcess.write` (line 712) — are part of
the inbound event, since they are decided by the host platform. -/

/-- The pty process handle returned by `pty.spawn`. -/
structure PtyProcess where
  pid : Nat
deriving DecidableEq, Repr

/-- Local state of one `handleShellConnection` invocation: the
`shellProcess` variable, and whether `ws.readyState === ws.OPEN`. -/
structure ShellState where
  shellProcess : Option PtyProcess
  wsOpen : Bool
deriving DecidableEq, Repr

/-- Messages the shell handler sends (`ws.send(JSON.stringify({...}))`). -/
inductive ShellServerMsg where
  | output (data : String)
  | urlOpen (url : String)
deriving DecidableEq, Repr

/-- The `type` field of the JSON actually written to the wire. -/
def ShellServerMsg.msgType : ShellServerMsg → String
  | .output _ => "output"
  | .urlOpen _ => "url_open"

instance {ε α : Type} [DecidableEq ε] [DecidableEq α] : DecidableEq (Except ε α) := fun
  | .error a, .error b =>
    if h : a = b then .isTrue (by rw [h]) else .isFalse (by simp [h])
  | .error _, .ok _ => .isFalse (by simp)
  | .ok _, .error _ => .isFalse (by simp)
  | .ok a, .ok b =>
    if h : a = b then .isTrue (by rw [h]) else .isFalse (by simp [h])

/-- A successfully parsed inbound shell message (`data.type` dispatch of
lines 589-725); `unknown` is a JSON object whose `type` matches no branch
(silently ignored).  `init` carries the outcome of the `pty.spawn` call it
triggers, `input` the outcome of the `shellProcess.write` call (`none` =
the write returned, `some e` = it threw `e`). -/
inductive ShellClientMsg where
  | init (projectPath : Option String) (sessionId : Option String)
      (hasSession : Bool) (spawnResult : Except String PtyProcess)
  | input (data : String) (writeError : Option String)
  | resize (cols rows : Nat)
  | unknown
deriving DecidableEq, Repr

/-- Events delivered to one shell connection's handlers: an inbound
websocket message (`Except.error e` models `JSON.parse` throwing `e`), a
chunk from `shellProcess.onData`, the `shellProcess.onExit` callback, the
socket `close` event (fired for graceful shutdown and for transport
errors alike), and the socket `error` event (which only logs). -/
inductive ShellEvent where
  | message (m : Except String ShellClientMsg)
  | procData (chunk : String)
  | procExit (exitCode : Int) (signal : Option Nat)
  | close
  | wsError
deriving DecidableEq, Repr

/-- Observable actions of the shell handler, in program order. -/
inductive ShellAction where
  | send (m : ShellServerMsg)
  | spawn (shellCommand : String)
  | write (pid : Nat) (data : String)
  | resizeProc (pid : Nat) (cols rows : Nat)
  | kill (pid : Nat)
  | closeConn
deriving DecidableEq, Repr

/-- JS `a || b` for an optional string (`undefined` and `""` are falsy);
used for `data.projectPath || process.cwd()`. -/
def jsOrStr (o : Option String) (d : String) : String :=
  match o with
  | some s => if s = "" then d else s
  | none => d

/-- JS truthiness of `data.sessionId` in `if (hasSession && sessionId)`. -/
def jsTruthyStr : Option String → Bool
  | some s => s != ""
  | none => false

/-- JS string interpolation of a possibly-undefined value (line 600). -/
def jsShowOptStr : Option String → String
  | some s => s
  | none => "undefined"

/-- Exit banner fragment `` `${exitCode.signal ? ` (${exitCode.signal})` : ''}` ``
(a signal of `0` is falsy). -/
def signalSuffix : Option Nat → String
  | some sg => if sg = 0 then "" else " (" ++ toString sg ++ ")"
  | none => ""

/-- One step of the shell handler.  `cwd` is `process.cwd()`. -/
def shellStep (cwd : String) (s : ShellState) : ShellEvent → ShellState × List ShellAction
  | .message (.error e) =>
    -- catch of lines 726-734: error banner as an `output` message, only
    -- when the socket is still open; the connection is not closed.
    (s, if s.wsOpen then
          [.send (.output ("\r\n\x1b[31mError: " ++ e ++ "\x1b[0m\r\n"))]
        else [])
  | .message (.ok (.init projectPath sessionId hasSession spawnResult)) =>
    let pp := jsOrStr projectPath cwd
    let welcome : ShellServerMsg := .output (if hasSession then
        "\x1b[36mResuming Claude session " ++ jsShowOptStr sessionId ++ " in: "
          ++ pp ++ "\x1b[0m\r\n"
      else
        "\x1b[36mStarting new Claude session in: " ++ pp ++ "\x1b[0m\r\n")
    let claudeCommand := if hasSession && jsTruthyStr sessionId then
        "claude --resume " ++ jsShowOptStr sessionId ++ " || claude"
      else "claude"
    let shellCommand := "cd \"" ++ pp ++ "\" && " ++ claudeCommand
    match spawnResult with
    | .ok p =>
      -- assignment `shellProcess = pty.spawn(...)` succeeded
      ({ s with shellProcess := some p }, [.send welcome, .spawn shellCommand])
    | .error e =>
      -- catch of lines 700-706: spawn failure banner; the assignment did
      -- not happen, so `shellProcess` keeps its previous value
      (s, [.send welcome, .spawn shellCommand,
           .send (.output ("\r\n\x1b[31mError: " ++ e ++ "\x1b[0m\r\n"))])
  | .message (.ok (.input d writeError)) =>
    match s.shellProcess with
    | some p =>
      match writeError with
      | none => (s, [.write p.pid d])
      | some _ => (s, [])   -- catch of line 713: `console.error` only
    | none => (s, [])       -- line 717: `console.warn` only
  | .message (.ok (.resize cols rows)) =>
    match s.shellProcess with
    | some p => (s, [.resizeProc p.pid cols rows])
    | none => (s, [])
  | .message (.ok .unknown) => (s, [])
  | .procData chunk =>
    -- onData handler, lines 643-686
    (s, if s.wsOpen then
          (scanChunk chunk.data).urlEvents.map
            (fun u => ShellAction.send (.urlOpen (String.mk u)))
          ++ [.send (.output (String.mk (scanChunk chunk.data).output))]
        else [])
  | .procExit exitCode signal =>
    -- onExit handler, lines 689-698: banner, then `shellProcess = null`
    ({ s with shellProcess := none },
     if s.wsOpen then
       [.send (.output ("\r\n\x1b[33mProcess exited with code " ++ toString exitCode
          ++ signalSuffix signal ++ "\x1b[0m\r\n"))]
     else [])
  | .close =>
    -- close handler, lines 737-743 (pty handles always expose `kill`);
    -- after the event the socket is no longer open
    ({ s with wsOpen := false },
     match s.shellProcess with
     | some p => [.kill p.pid]
     | none => [])
  | .wsError => (s, [])  -- lines 745-747: logging only

/-! ## Chat session relay (src/server/index.js lines 539-577) -/

/-- Messages the chat handler itself sends on the socket (the streamed
assistant events are produced by the out-of-scope `spawnClaude`
collaborator). -/
inductive ChatServerMsg where
  | errorMsg (error : String)
  | sessionAborted (sessionId : String) (success : Bool)
  | projectsUpdated (projects : List String) (timestamp : String)
      (changeType : String) (changedFile : String)
deriving DecidableEq, Repr

/-- The `type` field of the JSON written to the wire. -/
def ChatServerMsg.msgType : ChatServerMsg → String
  | .errorMsg _ => "error"
  | .sessionAborted _ _ => "session-aborted"
  | .projectsUpdated _ _ _ _ => "projects_updated"

/-- A parsed inbound chat message.  `claudeCommand` carries the outcome of
the awaited `spawnClaude` call (`Except.error e` = it threw, landing in
the catch); `abortSession` carries the boolean `abortClaudeSession`
returns. -/
inductive ChatClientMsg where
  | claudeCommand (command : Option String) (projectPath : Option String)
      (sessionId : Option String) (spawnResult : Except String Unit)
  | abortSession (sessionId : String) (aborted : Bool)
  | unknown
deriving DecidableEq, Repr

/-- Observable actions of the chat message handler. -/
inductive ChatAction where
  | send (m : ChatServerMsg)
  | spawnClaude (command : Option String) (projectPath : Option String)
      (sessionId : Option String)
  | abortClaude (sessionId : String)
  | closeConn
deriving DecidableEq, Repr

/-- The `ws.on('message')` handler of `handleChatConnection`
(lines 545-570): `JSON.parse` failures and `spawnClaude` errors both land
in the catch, which sends an `error`-typed message; the connection is
never closed by the handler. -/
def chatHandleMessage : Except String ChatClientMsg → List ChatAction
  | .error e => [.send (.errorMsg e)]
  | .ok (.claudeCommand cmd pp sid spawnResult) =>
    .spawnClaude cmd pp sid ::
      (match spawnResult with
       | .ok _ => []
       | .error e => [.send (.errorMsg e)])
  | .ok (.abortSession sid aborted) =>
    [.abortClaude sid, .send (.sessionAborted sid aborted)]
  | .ok .unknown => []

/-! ## Broadcast registry (src/server/index.js lines 43, 543, 575)

`connectedClients` is a JS `Set` of chat sockets: `handleChatConnection`
adds the socket as its first action, the socket's `close` handler deletes
it.  Sockets are identified by a numeric identity. -/

/-- JS `Set.add`: no duplicate entries, insertion order. -/
def setAdd (l : List Nat) (x : Nat) : List Nat :=
  if x ∈ l then l else l ++ [x]

/-- JS `Set.delete` (the set holds at most one entry per element). -/
def setDelete (l : List Nat) (x : Nat) : List Nat :=
  l.filter (fun y => y ≠ x)

/-- Registry-relevant gateway events: a chat connection's handler starting
(its first action registers the socket), a chat socket's `close` event,
and an inbound chat message (which never touches the registry). -/
inductive GatewayEvent where
  | chatConnect (id : Nat)
  | chatClose (id : Nat)
  | chatMessage (id : Nat) (m : Except String ChatClientMsg)
deriving DecidableEq, Repr

/-- Effect of one gateway event on `connectedClients`. -/
def gatewayStep (reg : List Nat) : GatewayEvent → List Nat
  | .chatConnect id => setAdd reg id
  | .chatClose id => setDelete reg id
  | .chatMessage _ _ => reg

/-- Registry after a sequence of gateway events. -/
def runGateway (reg : List Nat) (evts : List GatewayEvent) : List Nat :=
  evts.foldl gatewayStep reg

/-! ## Notification fan-out (src/server/index.js lines 78-108) -/

/-- WebSocket ready states; the fan-out checks
`client.readyState === client.OPEN`. -/
inductive ReadyState where
  | CONNECTING
  | OPEN
  | CLOSING
  | CLOSED
deriving DecidableEq, Repr

/-- A registered chat socket as the fan-out sees it. -/
structure ChatClient where
  id : Nat
  readyState : ReadyState
deriving DecidableEq, Repr

/-- The Notification Event produced by the (external, debounced) watcher:
change kind, affected path, timestamp, recomputed project list. -/
structure NotificationEvent where
  changeType : String
  changedFile : String
  timestamp : String
  projects : List String
deriving DecidableEq, Repr

/-- The `updateMessage` JSON built on lines 90-96. -/
def mkUpdateMessage (ev : NotificationEvent) : ChatServerMsg :=
  .projectsUpdated ev.projects ev.timestamp ev.changeType ev.changedFile

/-- The `connectedClients.forEach` loop of lines 98-102: send to every
client whose transport is open, skip the rest silently.  Returns the
`(client, message)` sends in loop order. -/
def broadcastProjectsUpdate (clients : List ChatClient) (msg : ChatServerMsg) :
    List (Nat × ChatServerMsg) :=
  clients.foldl
    (fun acc c => if c.readyState = ReadyState.OPEN then acc ++ [(c.id, msg)] else acc)
    []

/-! ## Connection router and upgrade gate (src/server/index.js lines 163-178
and 524-536) -/

/-- The two session handlers a socket can be dispatched to. -/
inductive WsHandler where
  | shell
  | chat
deriving DecidableEq, Repr

/-- The `wss.on('connection')` dispatcher: it reads `request.url` exactly
once, at handshake time.  Returns the handler attached (if any) and
whether `ws.close()` was called immediately. -/
def wssOnConnection (url : List Char) : Option WsHandler × Bool :=
  if ("/shell".data).isPrefixOf url then (some WsHandler.shell, false)
  else if ("/ws".data).isPrefixOf url then (some WsHandler.chat, false)
  else (none, true)

/-- An intercepted upgrade request: the authentication flag the session
middleware recovered from the cookie, and the requested path. -/
structure UpgradeRequest where
  isAuthenticated : Bool
  url : List Char
deriving DecidableEq, Repr

/-- Outcome of `server.on('upgrade')`: either the raw socket got a status
line written and was destroyed before any handshake, or the handshake
completed and the new socket was routed. -/
inductive UpgradeOutcome where
  | rejected (statusLine : String) (socketDestroyed : Bool)
  | connected (handler : Option WsHandler) (closedImmediately : Bool)
deriving DecidableEq, Repr

/-- The upgrade gate composed with the router and the chat handler's
registration (lines 163-178, 524-536, 543): unauthenticated requests are
rejected on the raw socket; authenticated ones complete the handshake,
are routed by path, and — only on the chat route — registered in
`connectedClients`. -/
def handleUpgrade (reg : List Nat) (connId : Nat) (req : UpgradeRequest) :
    List Nat × UpgradeOutcome :=
  if req.isAuthenticated = false then
    (reg, .rejected "HTTP/1.1 401 Unauthorized\r\n\r\n" true)
  else
    match wssOnConnection req.url with
    | (some WsHandler.chat, closed) => (setAdd reg connId, .connected (some WsHandler.chat) closed)
    | (h, closed) => (reg, .connected h closed)

/-! ## Decomposition lemmas for the scanner -/

theorem matchLit_decomp {lit s m r : List Char} (h : matchLit lit s = some (m, r)) :
    m = lit ∧ s = m ++ r := by
  unfold matchLit at h
  split at h
  · next hp =>
    rw [ List.isPrefixOf_iff_prefix] at hp
    obtain ⟨t, ht⟩ := hp
    simp only [Option.some.injEq, Prod.mk.injEq] at h
    obtain ⟨hm, hr⟩ := h
    subst hm
    subst hr
    exact ⟨rfl, by rw [← ht, List.drop_left]⟩
  · exact absurd h (by simp)

theorem matchLitCI_decomp :
    ∀ (lit s m r : List Char), matchLitCI lit s = some (m, r) →
      s = m ++ r ∧ m.length = lit.length := by
  intro lit
  induction lit with
  | nil =>
    intro s m r h
    simp only [matchLitCI, Option.some.injEq, Prod.mk.injEq] at h
    obtain ⟨hm, hr⟩ := h
    subst hm
    subst hr
    exact ⟨rfl, rfl⟩
  | cons l ls ih =>
    intro s m r h
    match s with
    | [] => simp [matchLitCI] at h
    | c :: cs =>
      simp only [matchLitCI] at h
      split at h
      · cases hin : matchLitCI ls cs with
        | none => rw [hin] at h; simp at h
        | some pr =>
          obtain ⟨m', r'⟩ := pr
          rw [hin] at h
          simp only [Option.some.injEq, Prod.mk.injEq] at h
          obtain ⟨hm, hr⟩ := h
          obtain ⟨ih1, ih2⟩ := ih cs m' r' hin
          subst hm
          subst hr
          exact ⟨by rw [ih1]; simp, by simp [ih2]⟩
      · exact absurd h (by simp)

theorem matchSpaces1_decomp {s m r : List Char} (h : matchSpaces1 s = some (m, r)) :
    s = m ++ r := by
  unfold matchSpaces1 at h
  split at h
  · exact absurd h (by simp)
  · simp only [Option.some.injEq, Prod.mk.injEq] at h
    obtain ⟨hm, hr⟩ := h
    subst hm
    subst hr
    exact (List.takeWhile_append_dropWhile isJsSpace s).symm

theorem matchSpaces0_decomp {s m r : List Char} (h : matchSpaces0 s = some (m, r)) :
    s = m ++ r := by
  unfold matchSpaces0 at h
  simp only [Option.some.injEq, Prod.mk.injEq] at h
  obtain ⟨hm, hr⟩ := h
  subst hm
  subst hr
  exact (List.takeWhile_append_dropWhile isJsSpace s).symm

theorem matchScheme_decomp {ci : Bool} {s m r : List Char}
    (h : matchScheme ci s = some (m, r)) : s = m ++ r ∧ m ≠ [] := by
  have hlen : ∀ (lit : List Char), lit ≠ [] → ∀ {m' : List Char},
      m'.length = lit.length → m' ≠ [] := by
    intro lit hne m' hl hm
    subst hm
    simp only [List.length_nil] at hl
    exact hne (List.length_eq_zero.mp hl.symm)
  unfold matchScheme at h
  split at h
  · cases h8 : matchLitCI "https://".data s with
    | some pr =>
      rw [h8] at h
      obtain ⟨m', r'⟩ := pr
      simp only [Option.some.injEq, Prod.mk.injEq] at h
      obtain ⟨hm, hr⟩ := h
      subst hm
      subst hr
      obtain ⟨hd, hl⟩ := matchLitCI_decomp _ _ _ _ h8
      exact ⟨hd, hlen "https://".data (by decide) hl⟩
    | none =>
      rw [h8] at h
      obtain ⟨hd, hl⟩ := matchLitCI_decomp _ _ _ _ h
      exact ⟨hd, hlen "http://".data (by decide) hl⟩
  · cases h8 : matchLit "https://".data s with
    | some pr =>
      rw [h8] at h
      obtain ⟨m', r'⟩ := pr
      simp only [Option.some.injEq, Prod.mk.injEq] at h
      obtain ⟨hm, hr⟩ := h
      subst hm
      subst hr
      obtain ⟨hm', hd⟩ := matchLit_decomp h8
      exact ⟨hd, by rw [hm']; decide⟩
    | none =>
      rw [h8] at h
      obtain ⟨hm', hd⟩ := matchLit_decomp h
      exact ⟨hd, by rw [hm']; decide⟩

theorem matchUrl_decomp {ci : Bool} {s m r : List Char}
    (h : matchUrl ci s = some (m, r)) : s = m ++ r := by
  unfold matchUrl at h
  split at h
  · exact absurd h (by simp)
  · next sch r1 hs =>
    split at h
    · exact absurd h (by simp)
    · simp only [Option.some.injEq, Prod.mk.injEq] at h
      obtain ⟨hm, hr⟩ := h
      subst hm
      subst hr
      obtain ⟨hdec, -⟩ := matchScheme_decomp hs
      rw [hdec, List.append_assoc, List.takeWhile_append_dropWhile]

theorem matchSeq_decomp
    {mLit mSpace mUrl : List Char → Option (List Char × List Char)}
    (hL : ∀ s x r, mLit s = some (x, r) → s = x ++ r ∧ x ≠ [])
    (hS : ∀ s x r, mSpace s = some (x, r) → s = x ++ r)
    (hU : ∀ s x r, mUrl s = some (x, r) → s = x ++ r)
    {s m0 g rest : List Char}
    (h : matchSeq mLit mSpace mUrl s = some (m0, g, rest)) :
    s = m0 ++ rest ∧ m0 ≠ [] := by
  unfold matchSeq at h
  split at h
  · exact absurd h (by simp)
  · next a r1 h1 =>
    split at h
    · exact absurd h (by simp)
    · next b r2 h2 =>
      split at h
      · exact absurd h (by simp)
      · next u r3 h3 =>
        simp only [Option.some.injEq, Prod.mk.injEq] at h
        obtain ⟨hm, hg, hr⟩ := h
        subst hm
        subst hr
        obtain ⟨ha, hane⟩ := hL s a r1 h1
        have hb := hS r1 b r2 h2
        have hu := hU r2 u r3 h3
        constructor
        · rw [ha, hb, hu]
          simp [List.append_assoc]
        · intro hc
          rw [List.append_eq_nil, List.append_eq_nil] at hc
          exact hane hc.1.1

theorem matchAt_decomp {p : UrlPattern} {s m0 g rest : List Char}
    (h : matchAt p s = some (m0, g, rest)) : s = m0 ++ rest ∧ m0 ≠ [] := by
  have hLit : ∀ (lit : List Char), lit ≠ [] →
      ∀ s x r, matchLit lit s = some (x, r) → s = x ++ r ∧ x ≠ [] := by
    intro lit hne s x r hm
    obtain ⟨hx, hs⟩ := matchLit_decomp hm
    exact ⟨hs, hx ▸ hne⟩
  have hLitCI : ∀ (lit : List Char), lit ≠ [] →
      ∀ s x r, matchLitCI lit s = some (x, r) → s = x ++ r ∧ x ≠ [] := by
    intro lit hne s x r hm
    obtain ⟨hs, hl⟩ := matchLitCI_decomp lit s x r hm
    refine ⟨hs, ?_⟩
    intro hx
    subst hx
    simp only [List.length_nil] at hl
    exact hne (List.length_eq_zero.mp hl.symm)
  have hS1 : ∀ s x r, matchSpaces1 s = some (x, r) → s = x ++ r :=
    fun _ _ _ hh => matchSpaces1_decomp hh
  have hS0 : ∀ s x r, matchSpaces0 s = some (x, r) → s = x ++ r :=
    fun _ _ _ hh => matchSpaces0_decomp hh
  have hUrl : ∀ (ci : Bool), ∀ s x r, matchUrl ci s = some (x, r) → s = x ++ r :=
    fun _ _ _ _ hh => matchUrl_decomp hh
  cases p with
  | openCmd =>
    simp only [matchAt] at h
    split at h
    · next res h1 =>
      injection h with h'
      subst h'
      exact matchSeq_decomp (hLit _ (by decide)) hS1 (hUrl false) h1
    · split at h
      · next res h2 =>
        injection h with h'
        subst h'
        exact matchSeq_decomp (hLit _ (by decide)) hS1 (hUrl false) h2
      · exact matchSeq_decomp (hLit _ (by decide)) hS1 (hUrl false) h
  | openUrlEnv =>
    simp only [matchAt] at h
    exact matchSeq_decomp (hLit _ (by decide)) hS0 (hUrl false) h
  | opening =>
    simp only [matchAt] at h
    exact matchSeq_decomp (hLitCI _ (by decide)) hS1 (hUrl true) h
  | visit =>
    simp only [matchAt] at h
    exact matchSeq_decomp (hLitCI _ (by decide)) hS0 (hUrl true) h
  | viewAt =>
    simp only [matchAt] at h
    exact matchSeq_decomp (hLitCI _ (by decide)) hS0 (hUrl true) h
  | browseTo =>
    simp only [matchAt] at h
    exact matchSeq_decomp (hLitCI _ (by decide)) hS0 (hUrl true) h

theorem findMatch_decomp (p : UrlPattern) :
    ∀ (s pre m0 g rest : List Char), findMatch p s = some (pre, m0, g, rest) →
      s = pre ++ m0 ++ rest ∧ m0 ≠ [] := by
  intro s
  induction s with
  | nil =>
    intro pre m0 g rest h
    simp only [findMatch] at h
    split at h
    · next m0' g' r' hA =>
      simp only [Option.some.injEq, Prod.mk.injEq] at h
      obtain ⟨hpre, hm, hg, hr⟩ := h
      subst hpre
      subst hm
      subst hr
      obtain ⟨hd, hne⟩ := matchAt_decomp hA
      exact ⟨by simpa using hd, hne⟩
    · exact absurd h (by simp)
  | cons c cs ih =>
    intro pre m0 g rest h
    simp only [findMatch] at h
    split at h
    · next m0' g' r' hA =>
      simp only [Option.some.injEq, Prod.mk.injEq] at h
      obtain ⟨hpre, hm, hg, hr⟩ := h
      subst hpre
      subst hm
      subst hr
      obtain ⟨hd, hne⟩ := matchAt_decomp hA
      exact ⟨by simpa using hd, hne⟩
    · split at h
      · next pre' m0' g' r' hF =>
        simp only [Option.some.injEq, Prod.mk.injEq] at h
        obtain ⟨hpre, hm, hg, hr⟩ := h
        subst hpre
        subst hm
        subst hr
        obtain ⟨hd, hne⟩ := ih pre' m0' g' r' hF
        exact ⟨by simp [hd, List.cons_append], hne⟩
      · exact absurd h (by simp)

theorem allMatches_head_split {p : UrlPattern} {s m0 g : List Char}
    {tl : List (List Char × List Char)}
    (h : allMatches p s = (m0, g) :: tl) :
    ∃ pre rest, s = pre ++ m0 ++ rest := by
  unfold allMatches at h
  cases hl : s.length with
  | zero => rw [hl] at h; simp [allMatchesFuel] at h
  | succ n =>
    rw [hl] at h
    simp only [allMatchesFuel] at h
    split at h
    · exact absurd h (by simp)
    · next pre m0' g' r hF =>
      simp only [List.cons.injEq, Prod.mk.injEq] at h
      obtain ⟨⟨hm, hg⟩, htl⟩ := h
      obtain ⟨hd, -⟩ := findMatch_decomp p s pre m0' g' r hF
      exact ⟨pre, r, hm ▸ hd⟩

theorem replaceOnce_split {pat repl : List Char} (hne : pat ≠ []) :
    ∀ (s : List Char), (∃ pre suf, s = pre ++ pat ++ suf) →
      ∃ pre suf, s = pre ++ pat ++ suf ∧
        replaceOnce pat repl s = pre ++ repl ++ suf := by
  intro s
  induction s with
  | nil =>
    rintro ⟨pre, suf, hs⟩
    exfalso
    have hs' := hs.symm
    rw [List.append_eq_nil, List.append_eq_nil] at hs'
    exact hne hs'.1.2
  | cons c cs ih =>
    rintro ⟨pre, suf, hs⟩
    by_cases hp : pat.isPrefixOf (c :: cs) = true
    · have hp' := hp
      rw [ List.isPrefixOf_iff_prefix] at hp'
      obtain ⟨t, ht⟩ := hp'
      refine ⟨[], t, ?_, ?_⟩
      · simp [← ht]
      · simp only [replaceOnce]
        rw [if_pos hp, ← ht, List.drop_left]
        simp
    · have hcase : ∃ pre' : List Char, pre = c :: pre' := by
        cases pre with
        | nil =>
          exfalso
          apply hp
          rw [ List.isPrefixOf_iff_prefix]
          exact ⟨suf, by simpa [List.append_assoc] using hs.symm⟩
        | cons c' pre' =>
          simp only [List.cons_append, List.cons.injEq] at hs
          exact ⟨pre', by rw [hs.1]⟩
      obtain ⟨pre', hpre⟩ := hcase
      subst hpre
      simp only [List.cons_append, List.cons.injEq] at hs
      obtain ⟨hc, hcs⟩ := hs
      obtain ⟨pre2, suf2, h1, h2⟩ := ih ⟨pre', suf, hcs⟩
      refine ⟨c :: pre2, suf2, ?_, ?_⟩
      · simp [h1, List.cons_append]
      · simp only [replaceOnce]
        rw [if_neg hp]
        simp [h2, List.cons_append]

/-! ## Claim theorems -/

/-- Claim C3: for every process-output chunk whose only pattern occurrence
is the bytes `OPEN_URL:http://example.com/x` (stated as: the `OPEN_URL`
pattern's `exec` loop finds exactly that one match and the other five
patterns find none), the scanner emits exactly one `url_open` event with
`url = "http://example.com/x"`, and the forwarded `output` equals the
chunk with the matched substring replaced by the confirmation string
`🌐 Opening in browser: http://example.com/x`, every byte outside the
match unchanged. -/
theorem scan_open_url_single_match (data : List Char)
    (h1 : allMatches UrlPattern.openCmd data = [])
    (h2 : allMatches UrlPattern.openUrlEnv data =
      [("OPEN_URL:http://example.com/x".data, "http://example.com/x".data)])
    (h3 : allMatches UrlPattern.opening data = [])
    (h4 : allMatches UrlPattern.visit data = [])
    (h5 : allMatches UrlPattern.viewAt data = [])
    (h6 : allMatches UrlPattern.browseTo data = []) :
    (scanChunk data).urlEvents = ["http://example.com/x".data] ∧
    ∃ pre suf, data = pre ++ "OPEN_URL:http://example.com/x".data ++ suf ∧
      (scanChunk data).output =
        pre ++ "🌐 Opening in browser: http://example.com/x".data ++ suf := by
  have hopen : isOpenUrlPattern UrlPattern.openUrlEnv = true := by decide
  have hmsg : openBrowserMsg "http://example.com/x".data =
      "🌐 Opening in browser: http://example.com/x".data := by decide
  have hscan : scanChunk data =
      ⟨["http://example.com/x".data],
       replaceOnce "OPEN_URL:http://example.com/x".data
         (openBrowserMsg "http://example.com/x".data) data⟩ := by
    unfold scanChunk
    simp [List.foldl_cons, List.foldl_nil, scanStep, processMatches,
      h1, h2, h3, h4, h5, h6, hopen]
  refine ⟨by rw [hscan], ?_⟩
  obtain ⟨pre0, rest0, hd⟩ := allMatches_head_split h2
  obtain ⟨pre, suf, hsplit, hrepl⟩ :=
    @replaceOnce_split "OPEN_URL:http://example.com/x".data
      (openBrowserMsg "http://example.com/x".data)
      (by decide) data ⟨pre0, rest0, hd⟩
  refine ⟨pre, suf, hsplit, ?_⟩
  rw [hscan]
  rw [hrepl, hmsg]

/-- Claim C4: for every process-output chunk in which the
`xdg-open`/`open`/`start` pattern finds exactly one match (URL `ua`) and
the `Visit:` pattern exactly one match (URL `ub`), the two URLs distinct
and the other four patterns finding nothing, exactly two `url_open`
events are emitted, one per URL, in the order the scanner finds the
patterns (array order), and the forwarded output is the chunk unchanged
(neither pattern is the `OPEN_URL` one, so no rewrite happens). -/
theorem scan_two_patterns_two_events (data m0a ua m0b ub : List Char)
    (h1 : allMatches UrlPattern.openCmd data = [(m0a, ua)])
    (h2 : allMatches UrlPattern.openUrlEnv data = [])
    (h3 : allMatches UrlPattern.opening data = [])
    (h4 : allMatches UrlPattern.visit data = [(m0b, ub)])
    (h5 : allMatches UrlPattern.viewAt data = [])
    (h6 : allMatches UrlPattern.browseTo data = [])
    (hne : ua ≠ ub) :
    (scanChunk data).urlEvents = [ua, ub] ∧ (scanChunk data).output = data := by
  have e1 : isOpenUrlPattern UrlPattern.openCmd = false := by decide
  have e4 : isOpenUrlPattern UrlPattern.visit = false := by decide
  constructor
  · unfold scanChunk
    simp [List.foldl_cons, List.foldl_nil, scanStep, processMatches,
      h1, h2, h3, h4, h5, h6, e1, e4]
  · unfold scanChunk
    simp [List.foldl_cons, List.foldl_nil, scanStep, processMatches,
      h1, h2, h3, h4, h5, h6, e1, e4]

/-- Claim C1: every upgrade request whose session is not authenticated gets
the `401 Unauthorized` status line written to the raw socket, the socket
destroyed before any handshake, no handler, and the Broadcast Registry
unchanged (no Connection object is ever created for it). -/
theorem upgrade_unauthenticated_rejected (reg : List Nat) (connId : Nat)
    (req : UpgradeRequest) (h : req.isAuthenticated = false) :
    handleUpgrade reg connId req =
      (reg, UpgradeOutcome.rejected "HTTP/1.1 401 Unauthorized\r\n\r\n" true) := by
  simp [handleUpgrade, h]

/-- Claim C2: on every shell Connection whose state holds a live process
(an `init` spawned it and no `process exit` event has cleared it — the
exit handler sets the reference to `none`), the `close` event makes the
handler terminate exactly that process via the Process Adapter, whatever
else is in the state and however the close was caused. -/
theorem close_kills_live_process (cwd : String) (s : ShellState) (p : PtyProcess)
    (h : s.shellProcess = some p) :
    shellStep cwd s ShellEvent.close =
      ({ s with wsOpen := false }, [ShellAction.kill p.pid]) := by
  simp [shellStep, h]

/-- Claim C5 counterexample: a malformed inbound payload on a shell
Connection (here the `JSON.parse` error text at a concrete state) makes
the handler send only an `output`-typed banner — no message of wire type
`error` is sent, contradicting the claim that the handler sends an error
message on malformed JSON for shell Connections as well. -/
theorem shell_malformed_sends_no_error_type :
    (shellStep "/" ⟨none, true⟩
        (ShellEvent.message (Except.error "Unexpected token o in JSON at position 1"))).2 =
      [ShellAction.send (ShellServerMsg.output
        "\r\n\x1b[31mError: Unexpected token o in JSON at position 1\x1b[0m\r\n")] ∧
    ((shellStep "/" ⟨none, true⟩
        (ShellEvent.message (Except.error "Unexpected token o in JSON at position 1"))).2.all
      (fun a => match a with
        | ShellAction.send m => m.msgType != "error"
        | _ => true)) = true := by
  exact ⟨rfl, rfl⟩

/-- Claim C5 as amended: a malformed inbound payload makes the chat handler
send an `error`-typed message and the shell handler (when its socket is
still open) an `output`-typed error banner; in both cases the handler
does not close the Connection and the shell state is unchanged, so
subsequent messages are still processed. -/
theorem malformed_json_reported_connection_open (cwd e1 e2 : String) (s : ShellState)
    (hopen : s.wsOpen = true) :
    chatHandleMessage (Except.error e1) = [ChatAction.send (ChatServerMsg.errorMsg e1)] ∧
    (ChatServerMsg.errorMsg e1).msgType = "error" ∧
    ChatAction.closeConn ∉ chatHandleMessage (Except.error e1) ∧
    shellStep cwd s (ShellEvent.message (Except.error e2)) =
      (s, [ShellAction.send (ShellServerMsg.output
        ("\r\n\x1b[31mError: " ++ e2 ++ "\x1b[0m\r\n"))]) ∧
    ShellAction.closeConn ∉ (shellStep cwd s (ShellEvent.message (Except.error e2))).2 := by
  refine ⟨rfl, rfl, by simp [chatHandleMessage], ?_, ?_⟩
  · simp [shellStep, hopen]
  · simp [shellStep, hopen]

/-- Claim C6 counterexample: at a concrete Running state, an `input`
message whose `shellProcess.write` call throws produces an empty action
list — the failure is caught and only logged server-side, so the client
receives nothing, contradicting the claim that a write failure is
reported to the client. -/
theorem input_write_failure_silent :
    shellStep "/" ⟨some ⟨7⟩, true⟩
        (ShellEvent.message (Except.ok (ShellClientMsg.input "ls\n" (some "EPIPE")))) =
      (⟨some ⟨7⟩, true⟩, []) := rfl

/-- Claim C6 as amended: while a process is live, an `input` message whose
write succeeds forwards the raw bytes to the process's input stream; a
write failure is caught silently (server-side log only) with no message
to the client; in both cases the session is not terminated — the process
reference is retained and the Connection state unchanged. -/
theorem input_forward_and_write_failure_behavior (cwd d e : String) (s : ShellState)
    (p : PtyProcess) (h : s.shellProcess = some p) :
    shellStep cwd s (ShellEvent.message (Except.ok (ShellClientMsg.input d none))) =
      (s, [ShellAction.write p.pid d]) ∧
    shellStep cwd s (ShellEvent.message (Except.ok (ShellClientMsg.input d (some e)))) =
      (s, []) := by
  constructor
  · simp [shellStep, h]
  · simp [shellStep, h]

/-- Claim C10: a second `init` while a process is live spawns a new process
and overwrites the single `shellProcess` reference without emitting any
kill for the earlier process; from then on the close handler terminates
only the newly spawned process, never the earlier one. -/
theorem second_init_overwrites_process (cwd : String) (s : ShellState)
    (pOld pNew : PtyProcess) (pp sid : Option String) (hs : Bool)
    (h : s.shellProcess = some pOld) (hne : pOld.pid ≠ pNew.pid) :
    (shellStep cwd s (ShellEvent.message (Except.ok
        (ShellClientMsg.init pp sid hs (Except.ok pNew))))).1.shellProcess = some pNew ∧
    (∀ pid, ShellAction.kill pid ∉ (shellStep cwd s (ShellEvent.message (Except.ok
        (ShellClientMsg.init pp sid hs (Except.ok pNew))))).2) ∧
    (shellStep cwd (shellStep cwd s (ShellEvent.message (Except.ok
        (ShellClientMsg.init pp sid hs (Except.ok pNew))))).1 ShellEvent.close).2 =
      [ShellAction.kill pNew.pid] ∧
    ShellAction.kill pOld.pid ∉ (shellStep cwd (shellStep cwd s (ShellEvent.message (Except.ok
        (ShellClientMsg.init pp sid hs (Except.ok pNew))))).1 ShellEvent.close).2 := by
  refine ⟨by simp [shellStep], ?_, by simp [shellStep], ?_⟩
  · intro pid
    simp [shellStep]
  · simp [shellStep, hne]

theorem mem_setAdd_self (l : List Nat) (x : Nat) : x ∈ setAdd l x := by
  unfold setAdd
  split
  · assumption
  · simp

theorem mem_setAdd_of_mem {l : List Nat} {x y : Nat} (h : y ∈ l) : y ∈ setAdd l x := by
  unfold setAdd
  split
  · exact h
  · exact List.mem_append_left _ h

theorem not_mem_setDelete_self (l : List Nat) (x : Nat) : x ∉ setDelete l x := by
  unfold setDelete
  intro hmem
  have := List.mem_filter.mp hmem
  simp at this

theorem mem_setDelete_of_ne {l : List Nat} {x y : Nat} (h : y ∈ l) (hne : y ≠ x) :
    y ∈ setDelete l x := by
  unfold setDelete
  exact List.mem_filter.mpr ⟨h, by simpa using hne⟩

theorem nodup_setAdd {l : List Nat} (x : Nat) (h : l.Nodup) : (setAdd l x).Nodup := by
  unfold setAdd
  split
  · exact h
  · next hx =>
    rw [List.nodup_append]
    refine ⟨h, List.nodup_singleton x, ?_⟩
    intro a ha hb
    rw [List.mem_singleton] at hb
    subst hb
    exact hx ha

theorem nodup_setDelete {l : List Nat} (x : Nat) (h : l.Nodup) : (setDelete l x).Nodup :=
  List.Nodup.filter _ h

theorem mem_runGateway_of_no_close (id : Nat) :
    ∀ (evts : List GatewayEvent) (reg : List Nat), id ∈ reg →
      (∀ e ∈ evts, e ≠ GatewayEvent.chatClose id) → id ∈ runGateway reg evts := by
  intro evts
  induction evts with
  | nil =>
    intro reg h _
    exact h
  | cons e es ih =>
    intro reg h hno
    have hstep : id ∈ gatewayStep reg e := by
      cases e with
      | chatConnect j => exact mem_setAdd_of_mem h
      | chatClose j =>
        have hj : id ≠ j := by
          intro hj
          exact hno _ (List.mem_cons_self _ _) (by rw [hj])
        exact mem_setDelete_of_ne h hj
      | chatMessage _ _ => exact h
    have hrw : runGateway reg (e :: es) = runGateway (gatewayStep reg e) es := by
      simp [runGateway, List.foldl_cons]
    rw [hrw]
    exact ih (gatewayStep reg e) hstep (fun e' he' => hno e' (List.mem_cons_of_mem _ he'))

/-- Claim C7: a chat Connection is registered in `connectedClients` by the
step modelling its handler start (registration is the handler's first
action, before any message event), removed by its `close` event, the
registry never acquires duplicates, and membership persists across every
event of a trace that contains no `close` for that Connection. -/
theorem chat_registry_membership (reg : List Nat) (id : Nat)
    (evts : List GatewayEvent) (hnd : reg.Nodup) :
    id ∈ gatewayStep reg (GatewayEvent.chatConnect id) ∧
    id ∉ gatewayStep reg (GatewayEvent.chatClose id) ∧
    (∀ e, (gatewayStep reg e).Nodup) ∧
    (id ∈ reg → (∀ e ∈ evts, e ≠ GatewayEvent.chatClose id) →
      id ∈ runGateway reg evts) := by
  refine ⟨mem_setAdd_self reg id, not_mem_setDelete_self reg id, ?_, ?_⟩
  · intro e
    cases e with
    | chatConnect j => exact nodup_setAdd j hnd
    | chatClose j => exact nodup_setDelete j hnd
    | chatMessage _ _ => exact hnd
  · intro hm hno
    exact mem_runGateway_of_no_close id evts reg hm hno

theorem broadcast_foldl_eq (msg : ChatServerMsg) :
    ∀ (clients : List ChatClient) (acc : List (Nat × ChatServerMsg)),
      clients.foldl
          (fun acc c =>
            if c.readyState = ReadyState.OPEN then acc ++ [(c.id, msg)] else acc)
          acc
        = acc ++ (clients.filter (fun c => c.readyState = ReadyState.OPEN)).map
            (fun c => (c.id, msg)) := by
  intro clients
  induction clients with
  | nil =>
    intro acc
    simp
  | cons c cs ih =>
    intro acc
    by_cases hc : c.readyState = ReadyState.OPEN
    · simp [List.foldl_cons, List.filter_cons, hc, ih, List.append_assoc]
    · simp [List.foldl_cons, List.filter_cons, hc, ih]

/-- Claim C8: a Notification Event is fanned out as one `projects_updated`
message to exactly the registered Connections whose transport is open
(the send list is the open sublist in registry order, with no duplicate
sends when Connection identities are distinct), and a registered
Connection that is not open receives nothing — silently, with no effect
on the deliveries to the others. -/
theorem broadcast_to_open_clients (clients : List ChatClient) (ev : NotificationEvent)
    (hids : (clients.map ChatClient.id).Nodup) :
    broadcastProjectsUpdate clients (mkUpdateMessage ev) =
      (clients.filter (fun c => c.readyState = ReadyState.OPEN)).map
        (fun c => (c.id, mkUpdateMessage ev)) ∧
    (∀ c ∈ clients, c.readyState = ReadyState.OPEN →
      (c.id, mkUpdateMessage ev) ∈ broadcastProjectsUpdate clients (mkUpdateMessage ev)) ∧
    (broadcastProjectsUpdate clients (mkUpdateMessage ev)).Nodup ∧
    (∀ c ∈ clients, c.readyState ≠ ReadyState.OPEN →
      ∀ m, (c.id, m) ∉ broadcastProjectsUpdate clients (mkUpdateMessage ev)) := by
  have heq : broadcastProjectsUpdate clients (mkUpdateMessage ev) =
      (clients.filter (fun c => c.readyState = ReadyState.OPEN)).map
        (fun c => (c.id, mkUpdateMessage ev)) := by
    unfold broadcastProjectsUpdate
    rw [broadcast_foldl_eq]
    simp
  have hfilterNodup :
      ((clients.filter (fun c => c.readyState = ReadyState.OPEN)).map ChatClient.id).Nodup :=
    List.Nodup.sublist (List.Sublist.map _ (List.filter_sublist clients)) hids
  refine ⟨heq, ?_, ?_, ?_⟩
  · intro c hc hopen
    rw [heq]
    exact List.mem_map_of_mem _ (List.mem_filter.mpr ⟨hc, by simp [hopen]⟩)
  · rw [heq]
    have hcomp : ((clients.filter (fun c => c.readyState = ReadyState.OPEN)).map
        (fun c => (c.id, mkUpdateMessage ev))).map Prod.fst =
        (clients.filter (fun c => c.readyState = ReadyState.OPEN)).map ChatClient.id := by
      rw [List.map_map]
      rfl
    exact List.Nodup.of_map Prod.fst (by rw [hcomp]; exact hfilterNodup)
  · intro c hc hno m hmem
    rw [heq] at hmem
    obtain ⟨c', hc', heq'⟩ := List.mem_map.mp hmem
    obtain ⟨hcmem, hcopen⟩ := List.mem_filter.mp hc'
    simp only [Prod.mk.injEq] at heq'
    have hcc : c' = c := List.inj_on_of_nodup_map hids hcmem hc heq'.1
    subst hcc
    exact hno (by simpa using hcopen)

theorem shell_prefix_false_of_ws (t : List Char) :
    ("/shell".data).isPrefixOf ('/' :: 'w' :: 's' :: t) = false := by
  show (('/' : Char) :: 's' :: 'h' :: 'e' :: 'l' :: 'l' :: []).isPrefixOf
    ('/' :: 'w' :: 's' :: t) = false
  have h1 : (('/' : Char) == '/') = true := by decide
  have h2 : (('s' : Char) == 'w') = false := by decide
  simp [List.isPrefixOf, h1, h2]

/-- Claim C9: the router reads the requested path once at handshake time
and dispatches: a `/shell`-prefixed path to the shell handler, a
`/ws`-prefixed path to the chat handler (the two prefixes are mutually
exclusive), and any other path gets `ws.close()` with no handler
attached. -/
theorem router_dispatch (url : List Char) :
    (("/shell".data).isPrefixOf url = true →
      wssOnConnection url = (some WsHandler.shell, false)) ∧
    (("/ws".data).isPrefixOf url = true →
      wssOnConnection url = (some WsHandler.chat, false)) ∧
    (("/shell".data).isPrefixOf url = false → ("/ws".data).isPrefixOf url = false →
      wssOnConnection url = (none, true)) := by
  refine ⟨?_, ?_, ?_⟩
  · intro h
    simp [wssOnConnection, h]
  · intro h
    have hws := h
    rw [ List.isPrefixOf_iff_prefix] at hws
    obtain ⟨t, ht⟩ := hws
    have hsh : ("/shell".data).isPrefixOf url = false := by
      rw [← ht]
      exact shell_prefix_false_of_ws t
    simp [wssOnConnection, hsh, h]
  · intro h1 h2
    simp [wssOnConnection, h1, h2]

/-- Witness for C1 at a concrete registry and request. -/
theorem upgrade_unauthenticated_rejected_witness :
    handleUpgrade [5] 9 ⟨false, "/ws".data⟩ =
      ([5], UpgradeOutcome.rejected "HTTP/1.1 401 Unauthorized\r\n\r\n" true) :=
  upgrade_unauthenticated_rejected [5] 9 ⟨false, "/ws".data⟩ rfl

/-- Witness for C2 at a concrete state with a live pid-42 process. -/
theorem close_kills_live_process_witness :
    shellStep "/home" ⟨some ⟨42⟩, true⟩ ShellEvent.close =
      (⟨some ⟨42⟩, false⟩, [ShellAction.kill 42]) :=
  close_kills_live_process "/home" ⟨some ⟨42⟩, true⟩ ⟨42⟩ rfl

/-- Witness for C3 at a concrete chunk surrounding the sentinel match. -/
theorem scan_open_url_single_match_witness :
    (scanChunk "ab OPEN_URL:http://example.com/x cd".data).urlEvents =
      ["http://example.com/x".data] ∧
    ∃ pre suf, "ab OPEN_URL:http://example.com/x cd".data =
        pre ++ "OPEN_URL:http://example.com/x".data ++ suf ∧
      (scanChunk "ab OPEN_URL:http://example.com/x cd".data).output =
        pre ++ "🌐 Opening in browser: http://example.com/x".data ++ suf :=
  scan_open_url_single_match "ab OPEN_URL:http://example.com/x cd".data
    (by decide) (by decide) (by decide) (by decide) (by decide) (by decide)

/-- Witness for C4 at a concrete chunk with one `xdg-open` and one
`Visit:` match. -/
theorem scan_two_patterns_two_events_witness :
    (scanChunk "xdg-open https://a and Visit: https://b".data).urlEvents =
      ["https://a".data, "https://b".data] ∧
    (scanChunk "xdg-open https://a and Visit: https://b".data).output =
      "xdg-open https://a and Visit: https://b".data :=
  scan_two_patterns_two_events "xdg-open https://a and Visit: https://b".data
    "xdg-open https://a".data "https://a".data "Visit: https://b".data "https://b".data
    (by decide) (by decide) (by decide) (by decide) (by decide) (by decide) (by decide)

/-- Witness for the amended C5 at concrete parse-error texts and state. -/
theorem malformed_json_reported_connection_open_witness :
    chatHandleMessage (Except.error "Unexpected token") =
      [ChatAction.send (ChatServerMsg.errorMsg "Unexpected token")] ∧
    (ChatServerMsg.errorMsg "Unexpected token").msgType = "error" ∧
    ChatAction.closeConn ∉ chatHandleMessage (Except.error "Unexpected token") ∧
    shellStep "/" ⟨none, true⟩
        (ShellEvent.message (Except.error "Unexpected end of JSON input")) =
      (⟨none, true⟩, [ShellAction.send (ShellServerMsg.output
        "\r\n\x1b[31mError: Unexpected end of JSON input\x1b[0m\r\n")]) ∧
    ShellAction.closeConn ∉
      (shellStep "/" ⟨none, true⟩
        (ShellEvent.message (Except.error "Unexpected end of JSON input"))).2 :=
  malformed_json_reported_connection_open "/" "Unexpected token"
    "Unexpected end of JSON input" ⟨none, true⟩ rfl

/-- Witness for the amended C6 at a concrete Running state. -/
theorem input_forward_and_write_failure_behavior_witness :
    shellStep "/" ⟨some ⟨3⟩, true⟩
        (ShellEvent.message (Except.ok (ShellClientMsg.input "ls" none))) =
      (⟨some ⟨3⟩, true⟩, [ShellAction.write 3 "ls"]) ∧
    shellStep "/" ⟨some ⟨3⟩, true⟩
        (ShellEvent.message (Except.ok (ShellClientMsg.input "ls" (some "EPIPE")))) =
      (⟨some ⟨3⟩, true⟩, []) :=
  input_forward_and_write_failure_behavior "/" "ls" "EPIPE" ⟨some ⟨3⟩, true⟩ ⟨3⟩ rfl

/-- Witness for C7 at a concrete registry and event trace. -/
theorem chat_registry_membership_witness :
    4 ∈ gatewayStep [4, 7] (GatewayEvent.chatConnect 4) ∧
    4 ∉ gatewayStep [4, 7] (GatewayEvent.chatClose 4) ∧
    (∀ e, (gatewayStep [4, 7] e).Nodup) ∧
    (4 ∈ [4, 7] →
      (∀ e ∈ [GatewayEvent.chatConnect 9,
          GatewayEvent.chatMessage 4 (Except.ok ChatClientMsg.unknown)],
        e ≠ GatewayEvent.chatClose 4) →
      4 ∈ runGateway [4, 7] [GatewayEvent.chatConnect 9,
          GatewayEvent.chatMessage 4 (Except.ok ChatClientMsg.unknown)]) :=
  chat_registry_membership [4, 7] 4
    [GatewayEvent.chatConnect 9, GatewayEvent.chatMessage 4 (Except.ok ChatClientMsg.unknown)]
    (by decide)

/-- Witness for C8 at a concrete registry (one open, one closed client). -/
theorem broadcast_to_open_clients_witness :
    broadcastProjectsUpdate [(⟨1, ReadyState.OPEN⟩ : ChatClient), ⟨2, ReadyState.CLOSED⟩]
        (mkUpdateMessage ⟨"change", "p/a.jsonl", "2025-01-01T00:00:00.000Z", ["proj1"]⟩) =
      ([(⟨1, ReadyState.OPEN⟩ : ChatClient), ⟨2, ReadyState.CLOSED⟩].filter
          (fun c => c.readyState = ReadyState.OPEN)).map
        (fun c => (c.id,
          mkUpdateMessage ⟨"change", "p/a.jsonl", "2025-01-01T00:00:00.000Z", ["proj1"]⟩)) ∧
    (∀ c ∈ [(⟨1, ReadyState.OPEN⟩ : ChatClient), ⟨2, ReadyState.CLOSED⟩], c.readyState = ReadyState.OPEN →
      (c.id, mkUpdateMessage ⟨"change", "p/a.jsonl", "2025-01-01T00:00:00.000Z", ["proj1"]⟩) ∈
        broadcastProjectsUpdate [(⟨1, ReadyState.OPEN⟩ : ChatClient), ⟨2, ReadyState.CLOSED⟩]
          (mkUpdateMessage ⟨"change", "p/a.jsonl", "2025-01-01T00:00:00.000Z", ["proj1"]⟩)) ∧
    (broadcastProjectsUpdate [(⟨1, ReadyState.OPEN⟩ : ChatClient), ⟨2, ReadyState.CLOSED⟩]
        (mkUpdateMessage ⟨"change", "p/a.jsonl", "2025-01-01T00:00:00.000Z", ["proj1"]⟩)).Nodup ∧
    (∀ c ∈ [(⟨1, ReadyState.OPEN⟩ : ChatClient), ⟨2, ReadyState.CLOSED⟩], c.readyState ≠ ReadyState.OPEN →
      ∀ m, (c.id, m) ∉
        broadcastProjectsUpdate [(⟨1, ReadyState.OPEN⟩ : ChatClient), ⟨2, ReadyState.CLOSED⟩]
          (mkUpdateMessage ⟨"change", "p/a.jsonl", "2025-01-01T00:00:00.000Z", ["proj1"]⟩)) :=
  broadcast_to_open_clients [(⟨1, ReadyState.OPEN⟩ : ChatClient), ⟨2, ReadyState.CLOSED⟩]
    ⟨"change", "p/a.jsonl", "2025-01-01T00:00:00.000Z", ["proj1"]⟩ (by decide)

/-- Witness for C9 at one path per route. -/
theorem router_dispatch_witness :
    wssOnConnection "/shell?x=1".data = (some WsHandler.shell, false) ∧
    wssOnConnection "/ws".data = (some WsHandler.chat, false) ∧
    wssOnConnection "/api/foo".data = (none, true) :=
  ⟨(router_dispatch "/shell?x=1".data).1 (by decide),
   (router_dispatch "/ws".data).2.1 (by decide),
   (router_dispatch "/api/foo".data).2.2 (by decide) (by decide)⟩

/-- Witness for C10 at a concrete state: pid-1 live, second init spawns
pid-2. -/
theorem second_init_overwrites_process_witness :
    (shellStep "/" ⟨some ⟨1⟩, true⟩ (ShellEvent.message (Except.ok
        (ShellClientMsg.init (some "/proj") none false (Except.ok ⟨2⟩))))).1.shellProcess =
      some ⟨2⟩ ∧
    (∀ pid, ShellAction.kill pid ∉ (shellStep "/" ⟨some ⟨1⟩, true⟩ (ShellEvent.message (Except.ok
        (ShellClientMsg.init (some "/proj") none false (Except.ok ⟨2⟩))))).2) ∧
    (shellStep "/" (shellStep "/" ⟨some ⟨1⟩, true⟩ (ShellEvent.message (Except.ok
        (ShellClientMsg.init (some "/proj") none false (Except.ok ⟨2⟩))))).1
      ShellEvent.close).2 = [ShellAction.kill 2] ∧
    ShellAction.kill 1 ∉ (shellStep "/" (shellStep "/" ⟨some ⟨1⟩, true⟩
      (ShellEvent.message (Except.ok
        (ShellClientMsg.init (some "/proj") none false (Except.ok ⟨2⟩))))).1
      ShellEvent.close).2 :=
  second_init_overwrites_process "/" ⟨some ⟨1⟩, true⟩ ⟨1⟩ ⟨2⟩ (some "/proj") none false rfl
    (by decide)
